import Mathlib

/-!
Shallow embedding of `src/backend/main.py` (SimpleCodeGen): a retrieval-augmented
code-generation service.  The two external collaborators — the Snippet Store
(ChromaDB collection) and the Model Runtime (Ollama chat API reached through
`requests.post`) — are modelled as explicit behaviour parameters: a function
giving the store's answer to a similarity query, and a function giving the
HTTP/JSON outcome of the chat call.  Exceptions raised by those collaborators
are modelled as `Except.error` carrying the exception's string rendering.
Every store operation and every Model Runtime invocation the endpoint performs
is recorded in an explicit trace, so frame and exactly-once properties can be
stated.
-/

namespace SimpleCodeGen

/-- A document held by the Snippet Store: `(id, text, metadata)`;
metadata is a string-to-string mapping, kept as an association list. -/
structure Document where
  id : String
  text : String
  metadata : List (String × String)
deriving DecidableEq, Repr

/-- The Snippet Store's contents, in insertion order. -/
def ChromaStore := List Document

/-- Request body of `POST /api/generate` (pydantic model `GenerateRequest`):
`prompt: str`, `code_type: Optional[str] = None`, `n_results: int = 3`. -/
structure GenerateRequest where
  prompt : String
  code_type : Option String := none
  n_results : Int := 3
deriving DecidableEq, Repr

/-- Response body of `POST /api/generate` (pydantic model `GenerateResponse`):
`output: str`, `used_context: List[str]`. -/
structure GenerateResponse where
  output : String
  used_context : List String
deriving DecidableEq, Repr

/-- Response body of `GET /health`. -/
structure HealthResponse where
  status : String
deriving DecidableEq, Repr

-- ---------- Seeder (`seed_chroma_if_empty`, main.py lines 21-281) ----------

/-- First seed document (main.py lines 28-239): the Tailwind HTML page. -/
def doc_html_tailwind : String :=
"Basic Tailwind HTML page:\n<!DOCTYPE html>\n<html lang=\"en\">\n<head>\n  <meta charset=\"UTF-8\" />\n  <title>Address Form</title>\n  <meta name=\"viewport\" content=\"width=device-width, initial-scale=1.0\" />\n  <!-- Tailwind CDN -->\n  <script src=\"https://cdn.tailwindcss.com\"></script>\n</head>\n<body class=\"min-h-screen bg-slate-100 flex items-center justify-center p-4\">\n  <div class=\"w-full max-w-xl bg-white shadow-lg rounded-2xl p-8\">\n    <h1 class=\"text-2xl font-bold text-slate-800 mb-2\">Address Form</h1>\n    <p class=\"text-slate-500 mb-6 text-sm\">\n      Enter your address information and submit.\n    </p>\n\n    <!-- Alert / Status -->\n    <div id=\"statusBox\" class=\"hidden mb-4 text-sm rounded-md px-3 py-2\"></div>\n\n    <form id=\"addressForm\" class=\"space-y-4\">\n      <!-- Name -->\n      <div>\n        <label for=\"fullName\" class=\"block text-sm font-medium text-slate-700 mb-1\">\n          Full Name\n        </label>\n        <input\n          id=\"fullName\"\n          name=\"fullName\"\n          type=\"text\"\n          required\n          class=\"block w-full rounded-lg border border-slate-300 px-3 py-2 text-sm focus:outline-none focus:ring-2 focus:ring-indigo-500 focus:border-indigo-500\"\n          placeholder=\"Jane Doe\"\n        />\n      </div>\n\n      <!-- Street -->\n      <div>\n        <label for=\"street\" class=\"block text-sm font-medium text-slate-700 mb-1\">\n          Street Address\n        </label>\n        <input\n          id=\"street\"\n          name=\"street\"\n          type=\"text\"\n          required\n          class=\"block w-full rounded-lg border border-slate-300 px-3 py-2 text-sm focus:outline-none focus:ring-2 focus:ring-indigo-500 focus:border-indigo-500\"\n          placeholder=\"123 Main St\"\n        />\n      </div>\n\n      <!-- City / State / Zip -->\n      <div class=\"grid grid-cols-1 md:grid-cols-3 gap-4\">\n        <div>\n          <label for=\"city\" class=\"block text-sm font-medium text-slate-700 mb-1\">\n            City\n          </label>\n          <input\n            id=\"city\"\n            name=\"city\"\n            type=\"text\"\n            required\n            class=\"block w-full rounded-lg border border-slate-300 px-3 py-2 text-sm focus:outline-none focus:ring-2 focus:ring-indigo-500 focus:border-indigo-500\"\n            placeholder=\"Montgomery\"\n          />\n        </div>\n        <div>\n          <label for=\"state\" class=\"block text-sm font-medium text-slate-700 mb-1\">\n            State / Province\n          </label>\n          <input\n            id=\"state\"\n            name=\"state\"\n            type=\"text\"\n            required\n            class=\"block w-full rounded-lg border border-slate-300 px-3 py-2 text-sm focus:outline-none focus:ring-2 focus:ring-indigo-500 focus:border-indigo-500\"\n            placeholder=\"AL\"\n          />\n        </div>\n        <div>\n          <label for=\"postalCode\" class=\"block text-sm font-medium text-slate-700 mb-1\">\n            ZIP / Postal Code\n          </label>\n          <input\n            id=\"postalCode\"\n            name=\"postalCode\"\n            type=\"text\"\n            required\n            class=\"block w-full rounded-lg border border-slate-300 px-3 py-2 text-sm focus:outline-none focus:ring-2 focus:ring-indigo-500 focus:border-indigo-500\"\n            placeholder=\"36104\"\n          />\n        </div>\n      </div>\n\n      <!-- Country -->\n      <div>\n        <label for=\"country\" class=\"block text-sm font-medium text-slate-700 mb-1\">\n          Country\n        </label>\n        <input\n          id=\"country\"\n          name=\"country\"\n          type=\"text\"\n          required\n          class=\"block w-full rounded-lg border border-slate-300 px-3 py-2 text-sm focus:outline-none focus:ring-2 focus:ring-indigo-500 focus:border-indigo-500\"\n          placeholder=\"United States\"\n        />\n      </div>\n\n      <!-- Optional Email -->\n      <div>\n        <label for=\"email\" class=\"block text-sm font-medium text-slate-700 mb-1\">\n          Email (optional)\n        </label>\n        <input\n          id=\"email\"\n          name=\"email\"\n          type=\"email\"\n          class=\"block w-full rounded-lg border border-slate-300 px-3 py-2 text-sm focus:outline-none focus:ring-2 focus:ring-indigo-500 focus:border-indigo-500\"\n          placeholder=\"you@example.com\"\n        />\n      </div>\n\n      <!-- Submit -->\n      <div class=\"pt-2 flex items-center gap-3\">\n        <button\n          type=\"submit\"\n          id=\"submitBtn\"\n          class=\"inline-flex items-center justify-center rounded-lg bg-indigo-600 px-4 py-2 text-sm font-semibold text-white shadow hover:bg-indigo-700 focus:outline-none focus:ring-2 focus:ring-indigo-500 disabled:opacity-60 disabled:cursor-not-allowed\"\n        >\n          Submit Address\n        </button>\n        <span id=\"loadingText\" class=\"hidden text-xs text-slate-500\">\n          Sending...\n        </span>\n      </div>\n    </form>\n  </div>\n\n  <script>\n    const form = document.getElementById(\x27addressForm\x27);\n    const statusBox = document.getElementById(\x27statusBox\x27);\n    const submitBtn = document.getElementById(\x27submitBtn\x27);\n    const loadingText = document.getElementById(\x27loadingText\x27);\n\n    function setStatus(message, type = \x27success\x27) \x7b\n      statusBox.textContent = message;\n      statusBox.classList.remove(\x27hidden\x27);\n      statusBox.classList.remove(\n        \x27bg-red-100\x27,\n        \x27text-red-700\x27,\n        \x27border-red-300\x27,\n        \x27bg-green-100\x27,\n        \x27text-green-700\x27,\n        \x27border-green-300\x27\n      );\n\n      if (type === \x27error\x27) \x7b\n        statusBox.classList.add(\x27bg-red-100\x27, \x27text-red-700\x27, \x27border\x27, \x27border-red-300\x27);\n      \x7d else \x7b\n        statusBox.classList.add(\x27bg-green-100\x27, \x27text-green-700\x27, \x27border\x27, \x27border-green-300\x27);\n      \x7d\n    \x7d\n\n    function setLoading(isLoading) \x7b\n      submitBtn.disabled = isLoading;\n      loadingText.classList.toggle(\x27hidden\x27, !isLoading);\n    \x7d\n\n    form.addEventListener(\x27submit\x27, async (e) => \x7b\n      e.preventDefault();\n      setLoading(true);\n      statusBox.classList.add(\x27hidden\x27);\n\n      const data = \x7b\n        fullName: form.fullName.value.trim(),\n        street: form.street.value.trim(),\n        city: form.city.value.trim(),\n        state: form.state.value.trim(),\n        postalCode: form.postalCode.value.trim(),\n        country: form.country.value.trim(),\n        email: form.email.value.trim() || null,\n      \x7d;\n\n      try \x7b\n        const response = await fetch(\x27/api/address\x27, \x7b\n          method: \x27POST\x27,\n          headers: \x7b\n            \x27Content-Type\x27: \x27application/json\x27,\n          \x7d,\n          body: JSON.stringify(data),\n        \x7d);\n\n        if (!response.ok) \x7b\n          const errText = await response.text();\n          throw new Error(errText || \x27Failed to submit address\x27);\n        \x7d\n\n        setStatus(\x27Address submitted successfully!\x27, \x27success\x27);\n        form.reset();\n      \x7d catch (err) \x7b\n        console.error(err);\n        setStatus(\x27Error: \x27 + err.message, \x27error\x27);\n      \x7d finally \x7b\n        setLoading(false);\n      \x7d\n    \x7d);\n  </script>\n</body>\n</html>\n\n"

/-- Second seed document (main.py lines 241-255): the JS fetch POST example. -/
def doc_js_fetch : String :=
"Simple JavaScript fetch POST example:\n\nasync function callApi() \x7b\n  const response = await fetch(\x27http://localhost:8000/api/generate\x27, \x7b\n    method: \x27POST\x27,\n    headers: \x7b \x27Content-Type\x27: \x27application/json\x27 \x7d,\n    body: JSON.stringify(\x7b\n      prompt: \x27Create a simple Node.js Express server\x27,\n      code_type: \x27node\x27\n    \x7d)\n  \x7d);\n  const data = await response.json();\n  console.log(data);\n\x7d\n"

/-- Third seed document (main.py lines 257-266): the Python FastAPI sample. -/
def doc_python_fastapi : String :=
"Python FastAPI sample:\n\nfrom fastapi import FastAPI\n\napp = FastAPI()\n\n@app.get(\"/hello\")\ndef hello():\n    return \x7b\"message\": \"Hello World\"\x7d\n"

/-- The `docs` list of `seed_chroma_if_empty` (main.py lines 26-267). -/
def seedDocs : List String := [doc_html_tailwind, doc_js_fetch, doc_python_fastapi]

/-- The `metadatas` list of `seed_chroma_if_empty` (main.py lines 269-273). -/
def seedMetadatas : List (List (String × String)) :=
  [[("lang", "html"), ("description", "Basic Tailwind HTML page template")],
   [("lang", "javascript"), ("description", "JS fetch example for POST API")],
   [("lang", "python"), ("description", "Simple FastAPI example")]]

/-- The `ids` list of `seed_chroma_if_empty` (main.py line 275). -/
def seedIds : List String := ["doc-html-tailwind", "doc-js-fetch", "doc-python-fastapi"]

/-- Pair up parallel `documents` / `metadatas` / `ids` lists into documents,
as `collection.add` does with its keyword lists. -/
def mkDocuments : List String → List (List (String × String)) → List String → List Document
  | doc :: docsRest, meta :: metasRest, docId :: idsRest =>
      ⟨docId, doc, meta⟩ :: mkDocuments docsRest metasRest idsRest
  | _, _, _ => []

/-- `collection.add(documents=..., metadatas=..., ids=...)`: append the new
documents to the store. -/
def collectionAdd (store : List Document) (documents : List String)
    (metadatas : List (List (String × String))) (ids : List String) : List Document :=
  store ++ mkDocuments documents metadatas ids

/-- `seed_chroma_if_empty` (main.py lines 21-281): read `collection.count()`;
if positive, return unchanged; otherwise add the three fixed documents. -/
def seed_chroma_if_empty (store : List Document) : List Document :=
  let existing := store.length
  if existing > 0 then store
  else collectionAdd store seedDocs seedMetadatas seedIds

-- ---------- Ollama + API setup (main.py lines 286-312) ----------

/-- `OLLAMA_URL` (main.py line 288), at its documented default. -/
def OLLAMA_URL : String := "http://localhost:11434"

/-- `OLLAMA_MODEL` (main.py line 289), at its documented default. -/
def OLLAMA_MODEL : String := "tinyllama"

/-- One role-tagged chat message sent to the Model Runtime. -/
structure ChatMessage where
  role : String
  content : String
deriving DecidableEq, Repr

/-- One invocation of `requests.post` on the Ollama chat API: the URL, the
JSON payload fields (`model`, `messages`, `stream`), and the `timeout`
keyword argument. -/
structure OllamaChatCall where
  url : String
  model : String
  messages : List ChatMessage
  stream : Bool
  timeout : Nat
deriving DecidableEq, Repr

/-- The parsed JSON body of a successful Ollama response, as far as the code
reads it: `data.get("message", \x7b\x7d).get("content", "")`.  A missing
`message` object or a missing `content` field is `none`. -/
structure OllamaData where
  message : Option (Option String)
deriving DecidableEq, Repr

/-- `data.get("message", \x7b\x7d).get("content", "")` (main.py line 366). -/
def extractContent (data : OllamaData) : String :=
  ((data.message).getD none).getD ""

/-- The result of `collection.query(...)` as the code reads it: the value of
the `"documents"` key, a list of per-query-text document-text lists
(`none` models an absent key). -/
structure ChromaQueryResult where
  documents : Option (List (List String))
deriving DecidableEq, Repr

/-- Main.py line 328:
`contexts = results.get("documents", [[]])[0] if results.get("documents") else []`.
Python truthiness: an absent key or an empty outer list yields `[]`;
otherwise the first inner list is taken. -/
def extractContexts (results : ChromaQueryResult) : List String :=
  match results.documents with
  | none => []
  | some [] => []
  | some (d :: _) => d

-- ---------- Store-operation trace ----------

/-- An operation issued against the Snippet Store. `add` is the only
mutating operation. -/
inductive ChromaOp where
  | count : ChromaOp
  | query (query_texts : List String) (n_results : Int) : ChromaOp
  | add (documents : List String) (metadatas : List (List (String × String)))
      (ids : List String) : ChromaOp
deriving DecidableEq, Repr

/-- Effect of one store operation on the store's contents: `count` and
`query` are reads, `add` appends. -/
def applyChromaOp (store : List Document) : ChromaOp → List Document
  | .count => store
  | .query _ _ => store
  | .add documents metadatas ids => collectionAdd store documents metadatas ids

/-- Effect of a sequence of store operations. -/
def runChromaOps (store : List Document) (ops : List ChromaOp) : List Document :=
  ops.foldl applyChromaOp store

-- ---------- Generation endpoint (`generate_code`, main.py lines 320-370) ----------

/-- The `system_message` string (main.py lines 332-336), the Python
concatenation of its three adjacent string literals. -/
def system_message : String :=
  "You are an expert code generator. " ++
  "You receive a user request and some example code snippets as context. " ++
  "Use the context as inspiration, but generate fresh, clean code."

/-- Python `req.code_type or "unspecified"` (main.py line 341): `or` takes
the first truthy operand, so both `None` and the empty string fall through
to `"unspecified"`. -/
def codeTypeOrUnspecified (code_type : Option String) : String :=
  match code_type with
  | none => "unspecified"
  | some s => if s = "" then "unspecified" else s

/-- The `user_prompt` f-string (main.py lines 338-348). -/
def user_prompt (req : GenerateRequest) (contexts_text : String) : String :=
  "User request:\n" ++ req.prompt ++
  "\n\nCode type: " ++ codeTypeOrUnspecified req.code_type ++
  "\n\nRelevant snippets from the knowledge base:\n" ++ contexts_text ++
  "\n\nNow generate the best possible code for the user. \nRespond with ONLY code and minimal comments.\n"

/-- The single `requests.post` invocation of `generate_code`
(main.py lines 352-363): Ollama chat URL, configured model, the two
role-tagged messages, `"stream": False`, `timeout=120`. -/
def mkOllamaCall (req : GenerateRequest) (contexts_text : String) : OllamaChatCall :=
  { url := OLLAMA_URL ++ "/api/chat"
    model := OLLAMA_MODEL
    messages := [⟨"system", system_message⟩, ⟨"user", user_prompt req contexts_text⟩]
    stream := false
    timeout := 120 }

/-- Behaviour of the Snippet Store's similarity query: given `query_texts`
and `n_results`, either a result dictionary or a raised exception
(rendered as a string). -/
def QueryBehavior := List String → Int → Except String ChromaQueryResult

/-- Behaviour of the Model Runtime call as the `try` block observes it:
`requests.post` + `raise_for_status()` + `resp.json()` either yield parsed
data or raise an exception `e` (rendered as `str(e)`). -/
def OllamaBehavior := OllamaChatCall → Except String OllamaData

/-- `generate_code` (main.py lines 320-370).  Returns the handler outcome
(`Except.error` models an exception escaping the handler) together with the
trace of store operations issued and of Model Runtime invocations made.
Step 1 queries the store; an exception there is NOT caught and aborts the
handler.  Steps 2-3 assemble the prompt and call Ollama inside
`try/except Exception`; any failure there becomes the in-body string
`"Error calling Ollama: " ++ e`. -/
def generate_code (collectionQuery : QueryBehavior) (ollamaPost : OllamaBehavior)
    (req : GenerateRequest) :
    Except String GenerateResponse × List ChromaOp × List OllamaChatCall :=
  match collectionQuery [req.prompt] req.n_results with
  | .error e => (.error e, [.query [req.prompt] req.n_results], [])
  | .ok results =>
    let contexts := extractContexts results
    let contexts_text := String.intercalate "\n\n---\n\n" contexts
    let call := mkOllamaCall req contexts_text
    let content :=
      match ollamaPost call with
      | .ok data => extractContent data
      | .error e => "Error calling Ollama: " ++ e
    (.ok ⟨content, contexts⟩, [.query [req.prompt] req.n_results], [call])

/-- `health` (main.py lines 315-317): returns `\x7b"status": "ok"\x7d` and
touches nothing, so its store-operation trace is empty. -/
def health : HealthResponse × List ChromaOp := (⟨"ok"⟩, [])

/-- Transport-level status the web framework reports for a handler outcome:
a normal return is HTTP success (200); an exception escaping the handler is
the framework's generic server error (500). -/
def httpStatusOf : Except String GenerateResponse → Nat
  | .ok _ => 200
  | .error _ => 500

-- ---------- Stub collaborator behaviours for concrete instantiations ----------

/-- Stub store behaviour: every query answers with two context snippets. -/
def stubQueryTwo : QueryBehavior := fun _ _ => .ok ⟨some [["ctx1", "ctx2"]]⟩

/-- Stub store behaviour: the store raises on every query. -/
def stubQueryDown : QueryBehavior := fun _ _ => .error "chroma unavailable"

/-- Stub store behaviour: the similarity query finds no documents. -/
def stubQueryEmpty : QueryBehavior := fun _ _ => .ok ⟨some [[]]⟩

/-- Stub Model Runtime behaviour: every call fails. -/
def stubOllamaDown : OllamaBehavior := fun _ => .error "timeout"

/-- Stub Model Runtime behaviour: every call returns fixed generated text. -/
def stubOllamaOk : OllamaBehavior := fun _ => .ok ⟨some (some "generated")⟩

/-- The user prompt as the spec's sentence reads: the same fixed template,
but interpolating `request.code_type` itself, with the literal string
"unspecified" only when `code_type` is absent.  Stated for comparison with
`user_prompt`, which is translated from the source (where Python `or` also
replaces an empty string by "unspecified"). -/
def user_prompt_specWording (req : GenerateRequest) (contexts_text : String) : String :=
  "User request:\n" ++ req.prompt ++
  "\n\nCode type: " ++ req.code_type.getD "unspecified" ++
  "\n\nRelevant snippets from the knowledge base:\n" ++ contexts_text ++
  "\n\nNow generate the best possible code for the user. \nRespond with ONLY code and minimal comments.\n"

-- ---------- Claims ----------

/-- Helper: on a successful store query, `generate_code` returns normally,
`used_context` is `extractContexts results`, the store trace is the single
similarity query, and the Model Runtime trace is the single
prompt-assembled call. -/
theorem generate_code_ok_eq (collectionQuery : QueryBehavior) (ollamaPost : OllamaBehavior)
    (req : GenerateRequest) (results : ChromaQueryResult)
    (hq : collectionQuery [req.prompt] req.n_results = .ok results) :
    generate_code collectionQuery ollamaPost req =
      (.ok ⟨match ollamaPost (mkOllamaCall req
              (String.intercalate "\n\n---\n\n" (extractContexts results))) with
            | .ok data => extractContent data
            | .error e => "Error calling Ollama: " ++ e,
            extractContexts results⟩,
       [.query [req.prompt] req.n_results],
       [mkOllamaCall req (String.intercalate "\n\n---\n\n" (extractContexts results))]) := by
  simp [generate_code, hq]

/-- C1: if the Model Runtime call made by `generate_code` fails in any way,
the handler does not raise: it returns a response whose `output` is
`"Error calling Ollama: "` followed by the failure detail, with
`used_context` still the texts retrieved from the Snippet Store in step 1,
and the endpoint still reports HTTP success. -/
theorem generate_ollama_failure_in_body
    (collectionQuery : QueryBehavior) (ollamaPost : OllamaBehavior)
    (req : GenerateRequest) (results : ChromaQueryResult) (e : String)
    (hq : collectionQuery [req.prompt] req.n_results = .ok results)
    (ho : ollamaPost (mkOllamaCall req
        (String.intercalate "\n\n---\n\n" (extractContexts results))) = .error e) :
    ∃ resp : GenerateResponse,
      (generate_code collectionQuery ollamaPost req).1 = .ok resp ∧
      resp.output = "Error calling Ollama: " ++ e ∧
      resp.used_context = extractContexts results ∧
      httpStatusOf (generate_code collectionQuery ollamaPost req).1 = 200 := by
  refine ⟨⟨"Error calling Ollama: " ++ e, extractContexts results⟩, ?_, rfl, rfl, ?_⟩ <;>
    simp [generate_code, hq, ho, httpStatusOf]

/-- Closed instance of C1 at a concrete request, store answer and failing
runtime. -/
theorem generate_ollama_failure_in_body_witness :
    ∃ resp : GenerateResponse,
      (generate_code stubQueryTwo stubOllamaDown ⟨"p", none, 3⟩).1 = .ok resp ∧
      resp.output = "Error calling Ollama: " ++ "timeout" ∧
      resp.used_context = extractContexts ⟨some [["ctx1", "ctx2"]]⟩ ∧
      httpStatusOf (generate_code stubQueryTwo stubOllamaDown ⟨"p", none, 3⟩).1 = 200 :=
  generate_ollama_failure_in_body stubQueryTwo stubOllamaDown ⟨"p", none, 3⟩
    ⟨some [["ctx1", "ctx2"]]⟩ "timeout" rfl rfl

/-- C2: the `used_context` field of the response is exactly the sequence of
document texts the Snippet Store's similarity query returned for this
request (the document list for the single query text), in the same order,
whatever the Model Runtime does. -/
theorem used_context_eq_query_documents
    (collectionQuery : QueryBehavior) (ollamaPost : OllamaBehavior)
    (req : GenerateRequest) (results : ChromaQueryResult)
    (docs : List String) (rest : List (List String))
    (hq : collectionQuery [req.prompt] req.n_results = .ok results)
    (hdocs : results.documents = some (docs :: rest)) :
    ∃ resp : GenerateResponse,
      (generate_code collectionQuery ollamaPost req).1 = .ok resp ∧
      resp.used_context = docs := by
  have hctx : extractContexts results = docs := by
    simp [extractContexts, hdocs]
  subst hctx
  cases ho : ollamaPost (mkOllamaCall req
      (String.intercalate "\n\n---\n\n" (extractContexts results))) with
  | ok d =>
      exact ⟨⟨extractContent d, extractContexts results⟩,
        by simp [generate_code, hq, ho], rfl⟩
  | error e =>
      exact ⟨⟨"Error calling Ollama: " ++ e, extractContexts results⟩,
        by simp [generate_code, hq, ho], rfl⟩

/-- Closed instance of C2 at a concrete request and store answer. -/
theorem used_context_eq_query_documents_witness :
    ∃ resp : GenerateResponse,
      (generate_code stubQueryTwo stubOllamaOk ⟨"p", some "python", 2⟩).1 = .ok resp ∧
      resp.used_context = ["ctx1", "ctx2"] :=
  used_context_eq_query_documents stubQueryTwo stubOllamaOk ⟨"p", some "python", 2⟩
    ⟨some [["ctx1", "ctx2"]]⟩ ["ctx1", "ctx2"] [] rfl rfl

/-- C3: `seed_chroma_if_empty` is idempotent; on an empty store it inserts
exactly the three fixed documents with ids `doc-html-tailwind`,
`doc-js-fetch`, `doc-python-fastapi` and their metadata; on a non-empty
store it is a no-op. -/
theorem seed_chroma_if_empty_spec (store : List Document) :
    seed_chroma_if_empty (seed_chroma_if_empty store) = seed_chroma_if_empty store ∧
    (store.length = 0 →
      seed_chroma_if_empty store =
        [⟨"doc-html-tailwind", doc_html_tailwind,
          [("lang", "html"), ("description", "Basic Tailwind HTML page template")]⟩,
         ⟨"doc-js-fetch", doc_js_fetch,
          [("lang", "javascript"), ("description", "JS fetch example for POST API")]⟩,
         ⟨"doc-python-fastapi", doc_python_fastapi,
          [("lang", "python"), ("description", "Simple FastAPI example")]⟩]) ∧
    (0 < store.length → seed_chroma_if_empty store = store) := by
  cases store with
  | nil =>
      refine ⟨rfl, fun _ => rfl, fun h => absurd h (by simp)⟩
  | cons d ds =>
      have hne : seed_chroma_if_empty (d :: ds) = d :: ds := by
        simp [seed_chroma_if_empty]
      exact ⟨by rw [hne, hne], fun h => by simp at h, fun _ => hne⟩

/-- Closed instance of C3: seeding a one-document store is a no-op, and
re-seeding changes nothing. -/
theorem seed_chroma_if_empty_spec_witness :
    seed_chroma_if_empty (seed_chroma_if_empty [⟨"d", "t", []⟩]) =
      seed_chroma_if_empty [⟨"d", "t", []⟩] ∧
    seed_chroma_if_empty [⟨"d", "t", []⟩] = [⟨"d", "t", []⟩] :=
  ⟨(seed_chroma_if_empty_spec [⟨"d", "t", []⟩]).1,
   (seed_chroma_if_empty_spec [⟨"d", "t", []⟩]).2.2 (by decide)⟩

/-- C4 counterexample: at `code_type = some ""` the user message actually
passed to the Model Runtime is NOT the template interpolating
`request.code_type` itself — the code substitutes "unspecified" for the
present-but-empty hint, because Python `or` tests truthiness. -/
theorem user_prompt_claim_counterexample :
    (generate_code stubQueryEmpty stubOllamaOk ⟨"p", some "", 3⟩).2.2 =
      [mkOllamaCall ⟨"p", some "", 3⟩ ""] ∧
    user_prompt ⟨"p", some "", 3⟩ "" ≠ user_prompt_specWording ⟨"p", some "", 3⟩ "" := by
  constructor
  · rfl
  · decide

/-- C4 (amended): the user prompt passed to the Model Runtime is exactly the
fixed template interpolating `request.prompt`, `request.code_type` (or the
literal "unspecified" when `code_type` is absent or empty) and
`contexts_text` (the retrieved texts joined by the fixed separator); when
`code_type` is omitted the literal substring "unspecified" appears in it. -/
theorem user_prompt_template
    (collectionQuery : QueryBehavior) (ollamaPost : OllamaBehavior)
    (req : GenerateRequest) (results : ChromaQueryResult)
    (hq : collectionQuery [req.prompt] req.n_results = .ok results) :
    ∃ call : OllamaChatCall,
      (generate_code collectionQuery ollamaPost req).2.2 = [call] ∧
      call.messages.map ChatMessage.content =
        [system_message,
         "User request:\n" ++ req.prompt ++ "\n\nCode type: " ++
           (match req.code_type with
            | none => "unspecified"
            | some s => if s = "" then "unspecified" else s) ++
           "\n\nRelevant snippets from the knowledge base:\n" ++
           String.intercalate "\n\n---\n\n" (extractContexts results) ++
           "\n\nNow generate the best possible code for the user. \nRespond with ONLY code and minimal comments.\n"] ∧
      (req.code_type = none →
        ∃ a b, user_prompt req (String.intercalate "\n\n---\n\n" (extractContexts results)) =
          a ++ "unspecified" ++ b) := by
  refine ⟨mkOllamaCall req (String.intercalate "\n\n---\n\n" (extractContexts results)),
    by rw [generate_code_ok_eq collectionQuery ollamaPost req results hq], ?_, ?_⟩
  · simp [mkOllamaCall, user_prompt, codeTypeOrUnspecified]
  · intro hct
    refine ⟨"User request:\n" ++ req.prompt ++ "\n\nCode type: ",
      "\n\nRelevant snippets from the knowledge base:\n" ++
        String.intercalate "\n\n---\n\n" (extractContexts results) ++
        "\n\nNow generate the best possible code for the user. \nRespond with ONLY code and minimal comments.\n", ?_⟩
    have hcu : codeTypeOrUnspecified req.code_type = "unspecified" := by
      rw [hct]
      rfl
    unfold user_prompt
    rw [hcu]
    simp only [String.append_assoc]

/-- Closed instance of the amended C4 at a concrete request with
`code_type` omitted. -/
theorem user_prompt_template_witness :
    ∃ call : OllamaChatCall,
      (generate_code stubQueryEmpty stubOllamaOk ⟨"p", none, 3⟩).2.2 = [call] ∧
      call.messages.map ChatMessage.content =
        [system_message,
         "User request:\n" ++ "p" ++ "\n\nCode type: " ++
           (match (none : Option String) with
            | none => "unspecified"
            | some s => if s = "" then "unspecified" else s) ++
           "\n\nRelevant snippets from the knowledge base:\n" ++
           String.intercalate "\n\n---\n\n" (extractContexts ⟨some [[]]⟩) ++
           "\n\nNow generate the best possible code for the user. \nRespond with ONLY code and minimal comments.\n"] ∧
      ((none : Option String) = none →
        ∃ a b, user_prompt ⟨"p", none, 3⟩
            (String.intercalate "\n\n---\n\n" (extractContexts ⟨some [[]]⟩)) =
          a ++ "unspecified" ++ b) :=
  user_prompt_template stubQueryEmpty stubOllamaOk ⟨"p", none, 3⟩ ⟨some [[]]⟩ rfl

/-- C5: `generate_code` invokes the Model Runtime exactly once, with
streaming disabled, timeout 120, and exactly two messages — the fixed
system instruction then the constructed user prompt, in that order. -/
theorem ollama_called_exactly_once
    (collectionQuery : QueryBehavior) (ollamaPost : OllamaBehavior)
    (req : GenerateRequest) (results : ChromaQueryResult)
    (hq : collectionQuery [req.prompt] req.n_results = .ok results) :
    ∃ call : OllamaChatCall,
      (generate_code collectionQuery ollamaPost req).2.2 = [call] ∧
      call.stream = false ∧
      call.timeout = 120 ∧
      call.messages =
        [⟨"system", system_message⟩,
         ⟨"user", user_prompt req (String.intercalate "\n\n---\n\n" (extractContexts results))⟩] :=
  ⟨mkOllamaCall req (String.intercalate "\n\n---\n\n" (extractContexts results)),
    by rw [generate_code_ok_eq collectionQuery ollamaPost req results hq], rfl, rfl, rfl⟩

/-- Closed instance of C5 at a concrete request and store answer. -/
theorem ollama_called_exactly_once_witness :
    ∃ call : OllamaChatCall,
      (generate_code stubQueryTwo stubOllamaOk ⟨"p", some "python", 3⟩).2.2 = [call] ∧
      call.stream = false ∧
      call.timeout = 120 ∧
      call.messages =
        [⟨"system", system_message⟩,
         ⟨"user", user_prompt ⟨"p", some "python", 3⟩
            (String.intercalate "\n\n---\n\n" (extractContexts ⟨some [["ctx1", "ctx2"]]⟩))⟩] :=
  ollama_called_exactly_once stubQueryTwo stubOllamaOk ⟨"p", some "python", 3⟩
    ⟨some [["ctx1", "ctx2"]]⟩ rfl

/-- C6: when the similarity query returns no documents, the context is
treated as empty rather than as an error: `used_context` is empty, the
contexts text interpolated into the single Model Runtime call is the empty
string, and the handler returns normally. -/
theorem empty_retrieval_not_error
    (collectionQuery : QueryBehavior) (ollamaPost : OllamaBehavior)
    (req : GenerateRequest) (results : ChromaQueryResult)
    (hq : collectionQuery [req.prompt] req.n_results = .ok results)
    (hempty : extractContexts results = []) :
    ∃ resp : GenerateResponse,
      (generate_code collectionQuery ollamaPost req).1 = .ok resp ∧
      resp.used_context = [] ∧
      (generate_code collectionQuery ollamaPost req).2.2 = [mkOllamaCall req ""] := by
  rw [generate_code_ok_eq collectionQuery ollamaPost req results hq]
  exact ⟨_, rfl, by simp [hempty], by rw [hempty]; rfl⟩

/-- Closed instance of C6 with a store answer holding no documents. -/
theorem empty_retrieval_not_error_witness :
    ∃ resp : GenerateResponse,
      (generate_code stubQueryEmpty stubOllamaOk ⟨"p", none, 3⟩).1 = .ok resp ∧
      resp.used_context = [] ∧
      (generate_code stubQueryEmpty stubOllamaOk ⟨"p", none, 3⟩).2.2 =
        [mkOllamaCall ⟨"p", none, 3⟩ ""] :=
  empty_retrieval_not_error stubQueryEmpty stubOllamaOk ⟨"p", none, 3⟩ ⟨some [[]]⟩ rfl rfl

/-- C7: under the Snippet Store's top-N contract (a successful query has a
non-negative `n_results` and every returned document list holds at most
`n_results` and at most store-count documents), the response's
`used_context` length is at most `n_results` and at most the number of
documents in the store. -/
theorem used_context_length_bounded
    (collectionQuery : QueryBehavior) (ollamaPost : OllamaBehavior)
    (req : GenerateRequest) (results : ChromaQueryResult) (storeCount : Nat)
    (hq : collectionQuery [req.prompt] req.n_results = .ok results)
    (hk : 0 ≤ req.n_results)
    (hstore : ∀ inner ∈ results.documents.getD [],
      (inner.length : Int) ≤ req.n_results ∧ inner.length ≤ storeCount) :
    ∃ resp : GenerateResponse,
      (generate_code collectionQuery ollamaPost req).1 = .ok resp ∧
      (resp.used_context.length : Int) ≤ req.n_results ∧
      resp.used_context.length ≤ storeCount := by
  have hmain : ((extractContexts results).length : Int) ≤ req.n_results ∧
      (extractContexts results).length ≤ storeCount := by
    cases hres : results.documents with
    | none => simpa [extractContexts, hres] using hk
    | some l =>
      cases l with
      | nil => simpa [extractContexts, hres] using hk
      | cons d rest =>
          simpa [extractContexts, hres] using hstore d (by simp [hres])
  rw [generate_code_ok_eq collectionQuery ollamaPost req results hq]
  exact ⟨_, rfl, hmain.1, hmain.2⟩

/-- Closed instance of C7: two retrieved documents, `n_results = 3`, a
five-document store. -/
theorem used_context_length_bounded_witness :
    ∃ resp : GenerateResponse,
      (generate_code stubQueryTwo stubOllamaOk ⟨"p", none, 3⟩).1 = .ok resp ∧
      (resp.used_context.length : Int) ≤ (3 : Int) ∧
      resp.used_context.length ≤ 5 :=
  used_context_length_bounded stubQueryTwo stubOllamaOk ⟨"p", none, 3⟩
    ⟨some [["ctx1", "ctx2"]]⟩ 5 rfl (by decide) (by decide)

/-- C8: a Snippet Store failure during the similarity query is not caught:
the exception propagates out of the handler unchanged (never converted to
an in-body message), the framework reports its generic server error, and
no Model Runtime call is made. -/
theorem store_failure_propagates
    (collectionQuery : QueryBehavior) (ollamaPost : OllamaBehavior)
    (req : GenerateRequest) (e : String)
    (hq : collectionQuery [req.prompt] req.n_results = .error e) :
    (generate_code collectionQuery ollamaPost req).1 = .error e ∧
    httpStatusOf (generate_code collectionQuery ollamaPost req).1 = 500 ∧
    (generate_code collectionQuery ollamaPost req).2.2 = [] := by
  refine ⟨?_, ?_, ?_⟩ <;> simp [generate_code, hq, httpStatusOf]

/-- Closed instance of C8 with an unavailable store. -/
theorem store_failure_propagates_witness :
    (generate_code stubQueryDown stubOllamaOk ⟨"p", none, 3⟩).1 =
      .error "chroma unavailable" ∧
    httpStatusOf (generate_code stubQueryDown stubOllamaOk ⟨"p", none, 3⟩).1 = 500 ∧
    (generate_code stubQueryDown stubOllamaOk ⟨"p", none, 3⟩).2.2 = [] :=
  store_failure_propagates stubQueryDown stubOllamaOk ⟨"p", none, 3⟩ "chroma unavailable" rfl

/-- C9: prompt assembly is deterministic: two runs on the same request in
which the store answers identically produce identical Model Runtime call
traces — identical system and user message strings — whatever either run's
Model Runtime behaviour is. -/
theorem prompt_assembly_deterministic
    (q1 q2 : QueryBehavior) (f g : OllamaBehavior) (req : GenerateRequest)
    (hsame : q1 [req.prompt] req.n_results = q2 [req.prompt] req.n_results) :
    (generate_code q1 f req).2.2 = (generate_code q2 g req).2.2 := by
  cases hq : q1 [req.prompt] req.n_results with
  | error e => simp [generate_code, hq, hsame.symm.trans hq]
  | ok results => simp [generate_code, hq, hsame.symm.trans hq]

/-- Closed instance of C9: identical traces across two runs whose Model
Runtime behaviours differ. -/
theorem prompt_assembly_deterministic_witness :
    (generate_code stubQueryTwo stubOllamaOk ⟨"p", none, 3⟩).2.2 =
      (generate_code stubQueryTwo stubOllamaDown ⟨"p", none, 3⟩).2.2 :=
  prompt_assembly_deterministic stubQueryTwo stubQueryTwo stubOllamaOk stubOllamaDown
    ⟨"p", none, 3⟩ rfl

/-- C10: neither `generate_code` nor `health` ever writes to the Snippet
Store: replaying every store operation either handler issues leaves any
store's contents unchanged (only seeding's `add` mutates a store). -/
theorem handlers_do_not_mutate_store
    (store : List Document) (collectionQuery : QueryBehavior)
    (ollamaPost : OllamaBehavior) (req : GenerateRequest) :
    runChromaOps store (generate_code collectionQuery ollamaPost req).2.1 = store ∧
    runChromaOps store health.2 = store := by
  constructor
  · cases hq : collectionQuery [req.prompt] req.n_results <;>
      simp [generate_code, hq, runChromaOps, applyChromaOp]
  · rfl

end SimpleCodeGen
